import Mathlib

/-!
Formal model of chv-ServiceAccountPrivilegeChecker (src/main.py).

The program loads a configuration document (YAML or JSON) and a JSON schema,
validates the document against the schema with jsonschema.validate, formats
the outcome as a report and maps it to a process exit code.

The loader (load_config, load_schema), the error-report formatter
(generate_report) and the exit-code plumbing (main) are translated directly
from src/main.py.  The validation engine itself is the external jsonschema
library, which is not part of the repository sources; its behaviour is
modelled from the specification (section 4.2): a recursive descent over the
schema keywords type, required, properties, items and uniqueItems that stops
at the first violation, plus an up-front structural check of the schema that
fails the call with an invalid-schema error.  File input is modelled as a
function from paths to an open result (not found, unreadable, or content),
and the YAML/JSON parsers as abstract parsing functions, since both are
external collaborators of src/main.py.
-/

mutual
/-- Generic JSON/YAML document tree (the DynamicValue of the data model):
null, booleans, numbers, strings, sequences and string-keyed mappings.
Numbers carry a rational value so that whole-number values (integer) are
distinguishable from general numbers.  Sequences and mappings are their own
inductive types so that all recursions below are structural. -/
inductive JValue where
  | null
  | bool (b : Bool)
  | num (q : Rat)
  | str (s : String)
  | arr (items : JArr)
  | obj (fields : JFields)

/-- A sequence of JSON values, order preserved. -/
inductive JArr where
  | nil
  | cons (v : JValue) (rest : JArr)

/-- The ordered fields of a JSON mapping (keys are unique strings). -/
inductive JFields where
  | nil
  | cons (k : String) (v : JValue) (rest : JFields)
end

mutual
/-- Structural equality of document values (Python == on parsed trees). -/
def jeq : JValue → JValue → Bool
  | .null, .null => true
  | .bool a, .bool b => a == b
  | .num a, .num b => a == b
  | .str a, .str b => a == b
  | .arr a, .arr b => aeq a b
  | .obj a, .obj b => feq a b
  | _, _ => false

/-- Structural equality of sequences. -/
def aeq : JArr → JArr → Bool
  | .nil, .nil => true
  | .cons a ra, .cons b rb => jeq a b && aeq ra rb
  | _, _ => false

/-- Structural equality of mapping field lists. -/
def feq : JFields → JFields → Bool
  | .nil, .nil => true
  | .cons ka va ra, .cons kb vb rb => ka == kb && jeq va vb && feq ra rb
  | _, _ => false
end

/-- Look a key up in a mapping (Python dict access on the parsed document). -/
def lookupField : JFields → String → Option JValue
  | .nil, _ => none
  | .cons k2 v rest, k => if k2 == k then some v else lookupField rest k

/-- Whether a mapping has a key. -/
def hasField (fields : JFields) (k : String) : Bool :=
  (lookupField fields k).isSome

/-- Modelled from the spec: the recognized values of the type keyword
(section 3, SchemaNode): object, array, string, number, integer, boolean,
null. -/
def recognizedType (t : String) : Bool :=
  t == "object" || t == "array" || t == "string" || t == "number" ||
  t == "integer" || t == "boolean" || t == "null"

/-- Modelled from the spec: whether the runtime kind of a document value
matches a declared type keyword; integer matches whole-number values
distinctly from number (section 4.2, step 1). -/
def typeMatches (t : String) : JValue → Bool
  | .null => t == "null"
  | .bool _ => t == "boolean"
  | .num q => t == "number" || (t == "integer" && q.den == 1)
  | .str _ => t == "string"
  | .arr _ => t == "array"
  | .obj _ => t == "object"

/-- A single validation error: the path from the document root to the
offending node and a human-readable message (section 3, ValidationError). -/
structure VError where
  path : List String
  message : String
deriving DecidableEq

/-- Modelled from the spec: the type-check step of validation.  When the
schema node declares type, a kind mismatch of the document value produces an
error at the current path (section 4.2, step 1).  A type value that is not a
recognized keyword never reaches this step: validate rejects the schema
before validation starts. -/
def typeStep (sfields : JFields) (doc : JValue) (path : List String) : Option VError :=
  match lookupField sfields "type" with
  | some (.str t) =>
      if typeMatches t doc then none
      else some { path := path, message := "is not of type '" ++ t ++ "'" }
  | _ => none

/-- Modelled from the spec: the first name of the required list that is not a
key of the mapping (section 4.2, step 2); non-string entries are ignored. -/
def firstMissingName (req : JArr) (dfields : JFields) : Option String :=
  match req with
  | .nil => none
  | .cons (.str name) rest =>
      if hasField dfields name then firstMissingName rest dfields else some name
  | .cons _ rest => firstMissingName rest dfields

/-- All names of the required list missing from the mapping, in list order
(the exhaustive counterpart of firstMissingName, used to express the
traversal order of violations). -/
def allMissingNames (req : JArr) (dfields : JFields) : List String :=
  match req with
  | .nil => []
  | .cons (.str name) rest =>
      if hasField dfields name then allMissingNames rest dfields
      else name :: allMissingNames rest dfields
  | .cons _ rest => allMissingNames rest dfields

/-- Modelled from the spec: the required-check step on a mapping: the first
missing name produces the error message naming that property (section 4.2,
step 2). -/
def requiredStep (sfields dfields : JFields) (path : List String) : Option VError :=
  match lookupField sfields "required" with
  | some (.arr req) =>
      match firstMissingName req dfields with
      | some name =>
          some { path := path, message := "'" ++ name ++ "' is a required property" }
      | none => none
  | _ => none

/-- All required-check violations of a mapping, in required-list order (the
exhaustive counterpart of requiredStep). -/
def requiredErrors (sfields dfields : JFields) (path : List String) : List VError :=
  match lookupField sfields "required" with
  | some (.arr req) =>
      (allMissingNames req dfields).map
        (fun name => { path := path, message := "'" ++ name ++ "' is a required property" })
  | _ => []

/-- Whether a value occurs in a sequence (by structural equality). -/
def jmem (v : JValue) : JArr → Bool
  | .nil => false
  | .cons x rest => jeq x v || jmem v rest

/-- Whether all elements of a sequence are pairwise distinct by value. -/
def allDistinct : JArr → Bool
  | .nil => true
  | .cons x rest => !(jmem x rest) && allDistinct rest

/-- Modelled from the spec: the uniqueItems check on a sequence: when the
schema sets uniqueItems to true and the sequence has a duplicate, an error
at the current path (section 4.2, step 5). -/
def uniqueStep (sfields : JFields) (xs : JArr) (path : List String) : Option VError :=
  match lookupField sfields "uniqueItems" with
  | some (.bool true) =>
      if allDistinct xs then none
      else some { path := path, message := "has non-unique elements" }
  | _ => none

mutual
/-- Modelled from the spec: the up-front structural check of the schema
document performed by validate before any validation (section 4.2, error
conditions): every type keyword anywhere in the schema must carry a
recognized type name; the check recurses into the subschemas under
properties and items.  Unrecognized keywords are ignored. -/
def schemaOk : JValue → Bool
  | .obj sfields => schemaOkFields sfields
  | _ => true

/-- Structural schema check over the fields of a schema node. -/
def schemaOkFields : JFields → Bool
  | .nil => true
  | .cons k v rest =>
      (if k == "type" then
         (match v with
          | .str t => recognizedType t
          | _ => false)
       else if k == "properties" then
         (match v with
          | .obj props => schemaOkProps props
          | _ => true)
       else if k == "items" then schemaOk v
       else true)
      && schemaOkFields rest

/-- Structural schema check over the subschemas of a properties mapping. -/
def schemaOkProps : JFields → Bool
  | .nil => true
  | .cons _ v rest => schemaOk v && schemaOkProps rest
end

mutual
/-- Modelled from the spec: fail-fast validation of a document node against
a schema node (section 4.2).  The checks run in the order type, required,
properties, items, uniqueItems; the first violation anywhere stops the
descent and is the only error produced.  Mapping properties are visited in
document order, sequence elements in index order with the index appended to
the path. -/
def firstError (schema doc : JValue) (path : List String) : Option VError :=
  match schema with
  | .obj sfields =>
      match typeStep sfields doc path with
      | some e => some e
      | none =>
          match doc with
          | .obj dfields =>
              match requiredStep sfields dfields path with
              | some e => some e
              | none =>
                  match lookupField sfields "properties" with
                  | some (.obj props) => firstErrorFields props dfields path
                  | _ => none
          | .arr xs =>
              let afterItems :=
                match lookupField sfields "items" with
                | some isc => firstErrorItems isc xs path 0
                | none => none
              match afterItems with
              | some e => some e
              | none => uniqueStep sfields xs path
          | _ => none
  | _ => none

/-- Fail-fast properties check: walk the document mapping in document order
and validate each field that has a declared subschema, stopping at the first
violation. -/
def firstErrorFields (props dfields : JFields) (path : List String) : Option VError :=
  match dfields with
  | .nil => none
  | .cons k v rest =>
      match lookupField props k with
      | some sub =>
          match firstError sub v (path ++ [k]) with
          | some e => some e
          | none => firstErrorFields props rest path
      | none => firstErrorFields props rest path

/-- Fail-fast items check: validate every element of the sequence against
the items subschema, stopping at the first violation. -/
def firstErrorItems (isc : JValue) (xs : JArr) (path : List String) (idx : Nat) : Option VError :=
  match xs with
  | .nil => none
  | .cons x rest =>
      match firstError isc x (path ++ [Nat.repr idx]) with
      | some e => some e
      | none => firstErrorItems isc rest path (idx + 1)
end

mutual
/-- The exhaustive enumeration of every violation of the document against
the schema, listed in the traversal order of the spec (type, then required,
then properties, then items, then uniqueItems, document order within each).
Its head is what fail-fast validation reports. -/
def collectErrors (schema doc : JValue) (path : List String) : List VError :=
  match schema with
  | .obj sfields =>
      (typeStep sfields doc path).toList ++
      (match doc with
       | .obj dfields =>
           requiredErrors sfields dfields path ++
           (match lookupField sfields "properties" with
            | some (.obj props) => collectFields props dfields path
            | _ => [])
       | .arr xs =>
           (match lookupField sfields "items" with
            | some isc => collectItems isc xs path 0
            | none => []) ++
           (uniqueStep sfields xs path).toList
       | _ => [])
  | _ => []

/-- Exhaustive properties traversal, document order. -/
def collectFields (props dfields : JFields) (path : List String) : List VError :=
  match dfields with
  | .nil => []
  | .cons k v rest =>
      (match lookupField props k with
       | some sub => collectErrors sub v (path ++ [k])
       | none => []) ++ collectFields props rest path

/-- Exhaustive items traversal, index order. -/
def collectItems (isc : JValue) (xs : JArr) (path : List String) (idx : Nat) : List VError :=
  match xs with
  | .nil => []
  | .cons x rest =>
      collectErrors isc x (path ++ [Nat.repr idx]) ++ collectItems isc rest path (idx + 1)
end

/-- Whether every string name of the required list is a key of the mapping. -/
def allPresent (req : JArr) (dfields : JFields) : Bool :=
  match req with
  | .nil => true
  | .cons (.str name) rest => hasField dfields name && allPresent rest dfields
  | .cons _ rest => allPresent rest dfields

mutual
/-- Declarative conformance of a document to the declared shape of a schema,
written from the words of the spec (sections 4.2 and 8): the declared type
matches, every required name is present, every declared property that is
present conforms to its subschema, every sequence element conforms to the
items subschema, and a uniqueItems sequence has pairwise distinct
elements. -/
def conforms (schema doc : JValue) : Bool :=
  match schema with
  | .obj sfields =>
      (match lookupField sfields "type" with
       | some (.str t) => typeMatches t doc
       | _ => true) &&
      (match doc with
       | .obj dfields =>
           (match lookupField sfields "required" with
            | some (.arr req) => allPresent req dfields
            | _ => true) &&
           (match lookupField sfields "properties" with
            | some (.obj props) => conformsFields props dfields
            | _ => true)
       | .arr xs =>
           (match lookupField sfields "items" with
            | some isc => conformsItems isc xs
            | none => true) &&
           (match lookupField sfields "uniqueItems" with
            | some (.bool true) => allDistinct xs
            | _ => true)
       | _ => true)
  | _ => true

/-- Declarative conformance of the fields of a mapping. -/
def conformsFields (props dfields : JFields) : Bool :=
  match dfields with
  | .nil => true
  | .cons k v rest =>
      (match lookupField props k with
       | some sub => conforms sub v
       | none => true) && conformsFields props rest

/-- Declarative conformance of the elements of a sequence. -/
def conformsItems (isc : JValue) (xs : JArr) : Bool :=
  match xs with
  | .nil => true
  | .cons x rest => conforms isc x && conformsItems isc rest
end

/-- An error as validate_config returns it: the message of the violation and
the path rendered as a dot-joined string (src/main.py lines 106 to 111). -/
structure ErrorInfo where
  message : String
  path : String
deriving DecidableEq

/-- The dot-joined rendering of an error path (src/main.py line 106). -/
def renderPath (path : List String) : String :=
  String.intercalate "." path

/-- Conversion of a validation error into the dictionary shape that
validate_config appends to its result list (src/main.py lines 108 to 112). -/
def toErrorInfo (e : VError) : ErrorInfo :=
  { message := e.message, path := renderPath e.path }

/-- validate_config (src/main.py lines 86 to 118): run jsonschema.validate;
an empty list when the document conforms, a singleton list holding the first
violation when it does not, and a ValueError (invalid schema) when the
schema document itself is structurally invalid.  jsonschema.validate checks
the schema before validating, so a bad schema never yields a validation
result. -/
def validate_config (config_data schema_data : JValue) : Except String (List ErrorInfo) :=
  if schemaOk schema_data then
    match firstError schema_data config_data [] with
    | none => Except.ok []
    | some e => Except.ok [toErrorInfo e]
  else
    Except.error "Invalid schema"

/-- One iteration of the report loop (src/main.py lines 136 to 138): append
the two lines describing one error to the report accumulated so far. -/
def reportStep (acc : String) (e : ErrorInfo) : String :=
  acc ++ ("  - Path: " ++ e.path ++ "\n") ++ ("    Message: " ++ e.message ++ "\n")

/-- generate_report (src/main.py lines 122 to 139): the fixed success
message on an empty error list, otherwise the failure header followed by a
Path line and a Message line for each error in result order. -/
def generate_report (validation_errors : List ErrorInfo) : String :=
  if validation_errors.isEmpty then
    "Configuration validation successful. No issues found."
  else
    validation_errors.foldl reportStep "Configuration validation failed:\n"

/-- The Path line of the report for one error. -/
def pathLine (e : ErrorInfo) : String :=
  "  - Path: " ++ e.path

/-- The Message line of the report for one error. -/
def msgLine (e : ErrorInfo) : String :=
  "    Message: " ++ e.message

/-- The report lines after the header: a Path line then a Message line for
each error, in result order. -/
def reportLines : List ErrorInfo → List String
  | [] => []
  | e :: rest => pathLine e :: msgLine e :: reportLines rest

/-- Join lines, terminating each with a newline. -/
def unlines : List String → String
  | [] => ""
  | l :: rest => l ++ "\n" ++ unlines rest

/-- Whether the first character list is a prefix of the second. -/
def isPre : List Char → List Char → Bool
  | [], _ => true
  | _ :: _, [] => false
  | c :: cs, d :: ds => c == d && isPre cs ds

/-- Whether a report line is a Path line. -/
def isPathLine (l : String) : Bool :=
  isPre "  - Path: ".data l.data

/-- Whether a report line is a Message line. -/
def isMsgLine (l : String) : Bool :=
  isPre "    Message: ".data l.data

/-- Whether a character list occurs inside another. -/
def listContains (sub : List Char) : List Char → Bool
  | [] => sub.isEmpty
  | c :: rest => isPre sub (c :: rest) || listContains sub rest

/-- Whether a string occurs inside another (substring test). -/
def strContainsSub (s sub : String) : Bool :=
  listContains sub.data s.data

/-- The outcome of opening a file for reading: the path does not exist, the
file exists but reading fails (for example a permission error), or the file
content.  Models Python open plus read. -/
inductive OpenResult where
  | notFound
  | readFailure (msg : String)
  | content (text : String)
deriving DecidableEq

/-- The failure categories of the loaders, one per raise site of src/main.py.
In Python, fileNotFound is a FileNotFoundError and the other three are
ValueError: the unsupported-format and parse raises inside the body are
caught by the generic except clause and re-wrapped, and a non-FileNotFound
read failure is wrapped by the same clause. -/
inductive LoadError where
  | fileNotFound (msg : String)
  | unsupportedFormat (msg : String)
  | parseError (msg : String)
  | readError (msg : String)
deriving DecidableEq

/-- Whether Python str.endswith suffix holds. -/
def strEndsWith (s suffix : String) : Bool :=
  suffix.data.isSuffixOf s.data

/-- load_config (src/main.py lines 25 to 57): open the file (a missing file
is a FileNotFoundError, any other open or read failure is wrapped into a
ValueError), then pick the parser by file suffix: .yaml or .yml means YAML,
.json means JSON, and any other suffix is the unsupported-format ValueError;
parser failures are wrapped into a ValueError carrying the parser message.
The file system and the two parsers are external collaborators, passed as
functions. -/
def load_config (fs : String → OpenResult)
    (yamlParse jsonParse : String → Except String JValue)
    (config_file : String) : Except LoadError JValue :=
  match fs config_file with
  | .notFound =>
      Except.error (.fileNotFound ("Configuration file not found: " ++ config_file))
  | .readFailure msg =>
      Except.error (.readError ("Error loading configuration file: " ++ msg))
  | .content text =>
      if strEndsWith config_file ".yaml" || strEndsWith config_file ".yml" then
        match yamlParse text with
        | .ok v => Except.ok v
        | .error e =>
            Except.error (.parseError
              ("Error loading configuration file: Error loading YAML file: " ++ e))
      else if strEndsWith config_file ".json" then
        match jsonParse text with
        | .ok v => Except.ok v
        | .error e =>
            Except.error (.parseError
              ("Error loading configuration file: Error loading JSON file: " ++ e))
      else
        Except.error (.unsupportedFormat
          ("Error loading configuration file: Unsupported file format.  Must be YAML or JSON."))

/-- load_schema (src/main.py lines 60 to 84): open the schema file and parse
it as JSON whatever its suffix; a missing file is a FileNotFoundError, parse
and read failures are ValueError. -/
def load_schema (fs : String → OpenResult)
    (jsonParse : String → Except String JValue)
    (schema_file : String) : Except LoadError JValue :=
  match fs schema_file with
  | .notFound =>
      Except.error (.fileNotFound ("Schema file not found: " ++ schema_file))
  | .readFailure msg =>
      Except.error (.readError ("Error loading schema file: " ++ msg))
  | .content text =>
      match jsonParse text with
      | .ok v => Except.ok v
      | .error e => Except.error (.parseError ("Error loading JSON schema: " ++ e))

/-- What one run of main observably does: the process exit code, whether
validate_config was reached, and whether a failure writing the report to the
output file was logged. -/
structure MainOutcome where
  exitCode : Nat
  validationRan : Bool
  writeFailureLogged : Bool
deriving DecidableEq

/-- main (src/main.py lines 141 to 191): load the configuration, load the
schema, validate, generate the report and write it to the output file when
one is given (a write failure is only logged), then exit 1 when validation
found errors and fall through to exit 0 otherwise.  Every raised failure
(FileNotFoundError, ValueError, unexpected) is caught, logged and mapped to
exit 1. -/
def mainRun (fs : String → OpenResult)
    (yamlParse jsonParse : String → Except String JValue)
    (config_file schema_file : String)
    (output_file : Option String) (writeOk : Bool) : MainOutcome :=
  match load_config fs yamlParse jsonParse config_file with
  | .error _ => { exitCode := 1, validationRan := false, writeFailureLogged := false }
  | .ok config_data =>
      match load_schema fs jsonParse schema_file with
      | .error _ => { exitCode := 1, validationRan := false, writeFailureLogged := false }
      | .ok schema_data =>
          match validate_config config_data schema_data with
          | .error _ => { exitCode := 1, validationRan := true, writeFailureLogged := false }
          | .ok validation_errors =>
              { exitCode := if validation_errors.isEmpty then 0 else 1,
                validationRan := true,
                writeFailureLogged := output_file.isSome && !writeOk }

/-- Whether a load result is the FileNotFound failure category. -/
def isFileNotFound : Except LoadError JValue → Bool
  | .error (.fileNotFound _) => true
  | _ => false

/-- Whether schema fields hold a type keyword whose value is not a
recognized type name (a structurally invalid schema). -/
def typeKeyBad : JFields → Bool
  | .nil => false
  | .cons k v rest =>
      (k == "type" && (match v with
                       | .str t => !(recognizedType t)
                       | _ => true)) || typeKeyBad rest

/-- The security-baseline schema of the example in src/main.py (lines 215 to
235): an object with a service_accounts array whose items are objects with a
string name and a permissions array of unique strings, both required. -/
def scenarioSchema : JValue :=
  JValue.obj (.cons "type" (JValue.str "object")
    (.cons "properties" (JValue.obj (.cons "service_accounts"
      (JValue.obj (.cons "type" (JValue.str "array")
        (.cons "items" (JValue.obj
          (.cons "type" (JValue.str "object")
          (.cons "properties" (JValue.obj
            (.cons "name" (JValue.obj (.cons "type" (JValue.str "string") .nil))
            (.cons "permissions" (JValue.obj
              (.cons "type" (JValue.str "array")
              (.cons "items" (JValue.obj (.cons "type" (JValue.str "string") .nil))
              (.cons "uniqueItems" (JValue.bool true) .nil)))) .nil)))
          (.cons "required" (JValue.arr (.cons (JValue.str "name")
            (.cons (JValue.str "permissions") .nil))) .nil))))
        .nil))) .nil))
    (.cons "required" (JValue.arr (.cons (JValue.str "service_accounts") .nil)) .nil)))

/-- Scenario A document: one service account with a name and two distinct
permissions; conforms to scenarioSchema. -/
def docA : JValue :=
  JValue.obj (.cons "service_accounts"
    (JValue.arr (.cons (JValue.obj
      (.cons "name" (JValue.str "web_server")
      (.cons "permissions" (JValue.arr (.cons (JValue.str "read")
        (.cons (JValue.str "write") .nil))) .nil))) .nil)) .nil)

/-- Scenario B document: one service account missing the required
permissions property. -/
def docB : JValue :=
  JValue.obj (.cons "service_accounts"
    (JValue.arr (.cons (JValue.obj (.cons "name" (JValue.str "web_server") .nil)) .nil)) .nil)

/-- A schema whose root requires the properties a and b (and nothing else). -/
def cexReqSchema : JValue :=
  JValue.obj (.cons "required"
    (JValue.arr (.cons (JValue.str "a") (.cons (JValue.str "b") .nil))) .nil)

/-- The empty mapping document. -/
def cexEmptyDoc : JValue :=
  JValue.obj .nil

/-- A parser stub that accepts any text as the empty mapping. -/
def parseObjNil : String → Except String JValue :=
  fun _ => Except.ok (JValue.obj .nil)

/-- A file system holding a single TOML file. -/
def fsToml : String → OpenResult :=
  fun p => if p == "accounts.toml" then OpenResult.content "key = 1" else OpenResult.notFound

/-- A file system on which every open fails with a permission error. -/
def fsPerm : String → OpenResult :=
  fun _ => OpenResult.readFailure "Permission denied"

/-- A file system with no files at all. -/
def fsEmpty : String → OpenResult :=
  fun _ => OpenResult.notFound

/-- A file system holding a configuration file and a schema file. -/
def fsTwoFiles : String → OpenResult :=
  fun p =>
    if p == "config.json" then OpenResult.content "{}"
    else if p == "schema.json" then OpenResult.content "{}"
    else OpenResult.notFound

/-- Schema fields whose type keyword carries an unrecognized name. -/
def badTypeFields : JFields :=
  JFields.cons "type" (JValue.str "invalid") .nil

theorem firstMissing_head (req : JArr) (dfields : JFields) :
    firstMissingName req dfields = (allMissingNames req dfields).head? := by
  cases req with
  | nil => rfl
  | cons v rest =>
    cases v with
    | str s =>
      show (if hasField dfields s = true then firstMissingName rest dfields else some s)
         = (if hasField dfields s = true then allMissingNames rest dfields
            else s :: allMissingNames rest dfields).head?
      split
      · exact firstMissing_head rest dfields
      · rfl
    | null => exact firstMissing_head rest dfields
    | bool b => exact firstMissing_head rest dfields
    | num q => exact firstMissing_head rest dfields
    | arr a => exact firstMissing_head rest dfields
    | obj o => exact firstMissing_head rest dfields

theorem requiredStep_head (sfields dfields : JFields) (path : List String) :
    requiredStep sfields dfields path = (requiredErrors sfields dfields path).head? := by
  unfold requiredStep requiredErrors
  cases h : lookupField sfields "required" with
  | none => rfl
  | some v =>
    cases v with
    | arr req =>
      dsimp only
      rw [firstMissing_head]
      cases allMissingNames req dfields <;> rfl
    | null => rfl
    | bool b => rfl
    | num q => rfl
    | str s => rfl
    | obj o => rfl

theorem firstError_unf_obj_obj (sfields dfields : JFields) (path : List String) :
    firstError (.obj sfields) (.obj dfields) path =
      (match typeStep sfields (.obj dfields) path with
       | some e => some e
       | none =>
         match requiredStep sfields dfields path with
         | some e => some e
         | none =>
           match lookupField sfields "properties" with
           | some (.obj props) => firstErrorFields props dfields path
           | _ => none) := rfl

theorem collectErrors_unf_obj_obj (sfields dfields : JFields) (path : List String) :
    collectErrors (.obj sfields) (.obj dfields) path =
      (typeStep sfields (.obj dfields) path).toList ++
      (requiredErrors sfields dfields path ++
       (match lookupField sfields "properties" with
        | some (.obj props) => collectFields props dfields path
        | _ => [])) := rfl

theorem firstError_unf_obj_arr (sfields : JFields) (xs : JArr) (path : List String) :
    firstError (.obj sfields) (.arr xs) path =
      (match typeStep sfields (.arr xs) path with
       | some e => some e
       | none =>
         match (match lookupField sfields "items" with
                | some isc => firstErrorItems isc xs path 0
                | none => none) with
         | some e => some e
         | none => uniqueStep sfields xs path) := rfl

theorem collectErrors_unf_obj_arr (sfields : JFields) (xs : JArr) (path : List String) :
    collectErrors (.obj sfields) (.arr xs) path =
      (typeStep sfields (.arr xs) path).toList ++
      ((match lookupField sfields "items" with
        | some isc => collectItems isc xs path 0
        | none => []) ++
       (uniqueStep sfields xs path).toList) := rfl

mutual
theorem firstError_head (schema doc : JValue) (path : List String) :
    firstError schema doc path = (collectErrors schema doc path).head? := by
  cases schema with
  | null => cases doc <;> rfl
  | bool b => cases doc <;> rfl
  | num q => cases doc <;> rfl
  | str s => cases doc <;> rfl
  | arr a => cases doc <;> rfl
  | obj sfields =>
    cases doc with
    | obj dfields =>
      rw [firstError_unf_obj_obj, collectErrors_unf_obj_obj]
      cases ht : typeStep sfields (JValue.obj dfields) path with
      | some e => simp
      | none =>
        simp only [Option.toList, List.nil_append]
        rw [requiredStep_head]
        cases hr : requiredErrors sfields dfields path with
        | cons e t => simp
        | nil =>
          simp only [List.head?, List.nil_append]
          cases hp : lookupField sfields "properties" with
          | none => rfl
          | some v =>
            cases v with
            | obj props => exact firstErrorFields_head props dfields path
            | null => rfl
            | bool b => rfl
            | num q => rfl
            | str s => rfl
            | arr a => rfl
    | arr xs =>
      rw [firstError_unf_obj_arr, collectErrors_unf_obj_arr]
      cases ht : typeStep sfields (JValue.arr xs) path with
      | some e => simp
      | none =>
        simp only [Option.toList, List.nil_append]
        cases hi : lookupField sfields "items" with
        | none =>
          dsimp only
          cases uniqueStep sfields xs path <;> rfl
        | some isc =>
          dsimp only
          rw [firstErrorItems_head]
          cases hc : collectItems isc xs path 0 with
          | cons e t => simp
          | nil =>
            simp only [List.head?, List.nil_append]
            cases uniqueStep sfields xs path <;> rfl
    | null =>
      show (match typeStep sfields JValue.null path with
            | some e => some e
            | none => none)
         = ((typeStep sfields JValue.null path).toList ++ []).head?
      cases typeStep sfields JValue.null path <;> rfl
    | bool b =>
      show (match typeStep sfields (JValue.bool b) path with
            | some e => some e
            | none => none)
         = ((typeStep sfields (JValue.bool b) path).toList ++ []).head?
      cases typeStep sfields (JValue.bool b) path <;> rfl
    | num q =>
      show (match typeStep sfields (JValue.num q) path with
            | some e => some e
            | none => none)
         = ((typeStep sfields (JValue.num q) path).toList ++ []).head?
      cases typeStep sfields (JValue.num q) path <;> rfl
    | str s =>
      show (match typeStep sfields (JValue.str s) path with
            | some e => some e
            | none => none)
         = ((typeStep sfields (JValue.str s) path).toList ++ []).head?
      cases typeStep sfields (JValue.str s) path <;> rfl

theorem firstErrorFields_head (props dfields : JFields) (path : List String) :
    firstErrorFields props dfields path = (collectFields props dfields path).head? := by
  cases dfields with
  | nil => rfl
  | cons k v rest =>
    show (match lookupField props k with
          | some sub =>
            match firstError sub v (path ++ [k]) with
            | some e => some e
            | none => firstErrorFields props rest path
          | none => firstErrorFields props rest path)
       = ((match lookupField props k with
           | some sub => collectErrors sub v (path ++ [k])
           | none => []) ++ collectFields props rest path).head?
    cases hl : lookupField props k with
    | none =>
      simp only [List.nil_append]
      exact firstErrorFields_head props rest path
    | some sub =>
      dsimp only
      rw [firstError_head]
      cases hc : collectErrors sub v (path ++ [k]) with
      | cons e t => simp
      | nil =>
        simp only [List.head?, List.nil_append]
        exact firstErrorFields_head props rest path

theorem firstErrorItems_head (isc : JValue) (xs : JArr) (path : List String) (idx : Nat) :
    firstErrorItems isc xs path idx = (collectItems isc xs path idx).head? := by
  cases xs with
  | nil => rfl
  | cons x rest =>
    show (match firstError isc x (path ++ [Nat.repr idx]) with
          | some e => some e
          | none => firstErrorItems isc rest path (idx + 1))
       = (collectErrors isc x (path ++ [Nat.repr idx]) ++ collectItems isc rest path (idx + 1)).head?
    rw [firstError_head]
    cases hc : collectErrors isc x (path ++ [Nat.repr idx]) with
    | cons e t => simp
    | nil =>
      simp only [List.head?, List.nil_append]
      exact firstErrorItems_head isc rest path (idx + 1)
end

theorem conforms_unf_obj_obj (sfields dfields : JFields) :
    conforms (.obj sfields) (.obj dfields) =
      ((match lookupField sfields "type" with
        | some (.str t) => typeMatches t (JValue.obj dfields)
        | _ => true) &&
       ((match lookupField sfields "required" with
         | some (.arr req) => allPresent req dfields
         | _ => true) &&
        (match lookupField sfields "properties" with
         | some (.obj props) => conformsFields props dfields
         | _ => true))) := rfl

theorem conforms_unf_obj_arr (sfields : JFields) (xs : JArr) :
    conforms (.obj sfields) (.arr xs) =
      ((match lookupField sfields "type" with
        | some (.str t) => typeMatches t (JValue.arr xs)
        | _ => true) &&
       ((match lookupField sfields "items" with
         | some isc => conformsItems isc xs
         | none => true) &&
        (match lookupField sfields "uniqueItems" with
         | some (.bool true) => allDistinct xs
         | _ => true))) := rfl

theorem typeStep_none_of (sfields : JFields) (doc : JValue) (path : List String)
    (h : (match lookupField sfields "type" with
          | some (.str t) => typeMatches t doc
          | _ => true) = true) :
    typeStep sfields doc path = none := by
  unfold typeStep
  cases hl : lookupField sfields "type" with
  | none => rfl
  | some v =>
    rw [hl] at h
    cases v with
    | str t =>
      dsimp only at h ⊢
      rw [if_pos h]
    | null => rfl
    | bool b => rfl
    | num q => rfl
    | arr a => rfl
    | obj o => rfl

theorem firstMissing_none_of_allPresent (req : JArr) (dfields : JFields)
    (h : allPresent req dfields = true) :
    firstMissingName req dfields = none := by
  cases req with
  | nil => rfl
  | cons v rest =>
    cases v with
    | str s =>
      have h2 : (hasField dfields s && allPresent rest dfields) = true := h
      rw [Bool.and_eq_true] at h2
      show (if hasField dfields s = true then firstMissingName rest dfields else some s) = none
      rw [if_pos h2.1]
      exact firstMissing_none_of_allPresent rest dfields h2.2
    | null => exact firstMissing_none_of_allPresent rest dfields h
    | bool b => exact firstMissing_none_of_allPresent rest dfields h
    | num q => exact firstMissing_none_of_allPresent rest dfields h
    | arr a => exact firstMissing_none_of_allPresent rest dfields h
    | obj o => exact firstMissing_none_of_allPresent rest dfields h

theorem requiredStep_none_of (sfields dfields : JFields) (path : List String)
    (h : (match lookupField sfields "required" with
          | some (.arr req) => allPresent req dfields
          | _ => true) = true) :
    requiredStep sfields dfields path = none := by
  unfold requiredStep
  cases hl : lookupField sfields "required" with
  | none => rfl
  | some v =>
    rw [hl] at h
    cases v with
    | arr req =>
      dsimp only
      rw [firstMissing_none_of_allPresent req dfields h]
    | null => rfl
    | bool b => rfl
    | num q => rfl
    | str s => rfl
    | obj o => rfl

theorem uniqueStep_none_of (sfields : JFields) (xs : JArr) (path : List String)
    (h : (match lookupField sfields "uniqueItems" with
          | some (.bool true) => allDistinct xs
          | _ => true) = true) :
    uniqueStep sfields xs path = none := by
  unfold uniqueStep
  cases hl : lookupField sfields "uniqueItems" with
  | none => rfl
  | some v =>
    rw [hl] at h
    cases v with
    | bool b =>
      cases b with
      | true =>
        dsimp only at h ⊢
        rw [if_pos h]
      | false => rfl
    | null => rfl
    | num q => rfl
    | str s => rfl
    | arr a => rfl
    | obj o => rfl

mutual
theorem conforms_firstError (schema doc : JValue) (path : List String)
    (h : conforms schema doc = true) :
    firstError schema doc path = none := by
  cases schema with
  | null => cases doc <;> rfl
  | bool b => cases doc <;> rfl
  | num q => cases doc <;> rfl
  | str s => cases doc <;> rfl
  | arr a => cases doc <;> rfl
  | obj sfields =>
    cases doc with
    | obj dfields =>
      rw [conforms_unf_obj_obj, Bool.and_eq_true, Bool.and_eq_true] at h
      obtain ⟨hA, hB, hC⟩ := h
      rw [firstError_unf_obj_obj, typeStep_none_of sfields _ path hA,
        requiredStep_none_of sfields dfields path hB]
      dsimp only
      cases hp : lookupField sfields "properties" with
      | none => rfl
      | some v =>
        rw [hp] at hC
        cases v with
        | obj props => exact conformsFields_firstErrorFields props dfields path hC
        | null => rfl
        | bool b => rfl
        | num q => rfl
        | str s => rfl
        | arr a => rfl
    | arr xs =>
      rw [conforms_unf_obj_arr, Bool.and_eq_true, Bool.and_eq_true] at h
      obtain ⟨hA, hI, hU⟩ := h
      rw [firstError_unf_obj_arr, typeStep_none_of sfields _ path hA]
      dsimp only
      cases hi : lookupField sfields "items" with
      | none =>
        dsimp only
        exact uniqueStep_none_of sfields xs path hU
      | some isc =>
        rw [hi] at hI
        dsimp only
        rw [conformsItems_firstErrorItems isc xs path 0 hI]
        exact uniqueStep_none_of sfields xs path hU
    | null =>
      have h2 : ((match lookupField sfields "type" with
                  | some (.str t) => typeMatches t (JValue.null)
                  | _ => true) && true) = true := h
      rw [Bool.and_eq_true] at h2
      show (match typeStep sfields (JValue.null) path with
            | some e => some e
            | none => none) = none
      rw [typeStep_none_of sfields (JValue.null) path h2.1]
    | bool b =>
      have h2 : ((match lookupField sfields "type" with
                  | some (.str t) => typeMatches t (JValue.bool b)
                  | _ => true) && true) = true := h
      rw [Bool.and_eq_true] at h2
      show (match typeStep sfields (JValue.bool b) path with
            | some e => some e
            | none => none) = none
      rw [typeStep_none_of sfields (JValue.bool b) path h2.1]
    | num q =>
      have h2 : ((match lookupField sfields "type" with
                  | some (.str t) => typeMatches t (JValue.num q)
                  | _ => true) && true) = true := h
      rw [Bool.and_eq_true] at h2
      show (match typeStep sfields (JValue.num q) path with
            | some e => some e
            | none => none) = none
      rw [typeStep_none_of sfields (JValue.num q) path h2.1]
    | str s =>
      have h2 : ((match lookupField sfields "type" with
                  | some (.str t) => typeMatches t (JValue.str s)
                  | _ => true) && true) = true := h
      rw [Bool.and_eq_true] at h2
      show (match typeStep sfields (JValue.str s) path with
            | some e => some e
            | none => none) = none
      rw [typeStep_none_of sfields (JValue.str s) path h2.1]

theorem conformsFields_firstErrorFields (props dfields : JFields) (path : List String)
    (h : conformsFields props dfields = true) :
    firstErrorFields props dfields path = none := by
  cases dfields with
  | nil => rfl
  | cons k v rest =>
    have h2 : ((match lookupField props k with
                | some sub => conforms sub v
                | none => true) && conformsFields props rest) = true := h
    rw [Bool.and_eq_true] at h2
    show (match lookupField props k with
          | some sub =>
            match firstError sub v (path ++ [k]) with
            | some e => some e
            | none => firstErrorFields props rest path
          | none => firstErrorFields props rest path) = none
    cases hl : lookupField props k with
    | none => exact conformsFields_firstErrorFields props rest path h2.2
    | some sub =>
      have h3 := h2.1
      rw [hl] at h3
      dsimp only
      rw [conforms_firstError sub v (path ++ [k]) h3]
      exact conformsFields_firstErrorFields props rest path h2.2

theorem conformsItems_firstErrorItems (isc : JValue) (xs : JArr) (path : List String) (idx : Nat)
    (h : conformsItems isc xs = true) :
    firstErrorItems isc xs path idx = none := by
  cases xs with
  | nil => rfl
  | cons x rest =>
    have h2 : (conforms isc x && conformsItems isc rest) = true := h
    rw [Bool.and_eq_true] at h2
    show (match firstError isc x (path ++ [Nat.repr idx]) with
          | some e => some e
          | none => firstErrorItems isc rest path (idx + 1)) = none
    rw [conforms_firstError isc x (path ++ [Nat.repr idx]) h2.1]
    exact conformsItems_firstErrorItems isc rest path (idx + 1) h2.2
end

theorem isPre_append (l t : List Char) : isPre l (l ++ t) = true := by
  induction l with
  | nil => rfl
  | cons c cs ih => simp [isPre, ih]

theorem isPathLine_pathLine (e : ErrorInfo) : isPathLine (pathLine e) = true := by
  unfold isPathLine pathLine
  rw [String.data_append]
  exact isPre_append _ _

theorem isPathLine_msgLine (e : ErrorInfo) : isPathLine (msgLine e) = false := rfl

theorem isMsgLine_msgLine (e : ErrorInfo) : isMsgLine (msgLine e) = true := by
  unfold isMsgLine msgLine
  rw [String.data_append]
  exact isPre_append _ _

theorem foldl_reportStep (l : List ErrorInfo) (acc : String) :
    l.foldl reportStep acc = acc ++ unlines (reportLines l) := by
  induction l generalizing acc with
  | nil =>
    show acc = acc ++ unlines []
    rw [unlines, String.append_empty]
  | cons e t ih =>
    show t.foldl reportStep (reportStep acc e) = acc ++ unlines (pathLine e :: msgLine e :: reportLines t)
    rw [ih]
    simp only [reportStep, unlines, pathLine, msgLine, String.append_assoc]

theorem generate_report_failed (l : List ErrorInfo) (h : l ≠ []) :
    generate_report l = unlines ("Configuration validation failed:" :: reportLines l) := by
  cases l with
  | nil => exact absurd rfl h
  | cons e t =>
    show (e :: t).foldl reportStep "Configuration validation failed:\n" = _
    rw [foldl_reportStep]
    rfl

theorem reportLines_countP (l : List ErrorInfo) :
    (reportLines l).countP (fun s => isPathLine s) = l.length := by
  induction l with
  | nil => rfl
  | cons e t ih =>
    show (pathLine e :: msgLine e :: reportLines t).countP (fun s => isPathLine s) = t.length + 1
    rw [List.countP_cons, List.countP_cons, ih, isPathLine_pathLine, isPathLine_msgLine]
    simp

theorem reportLines_follow (l : List ErrorInfo) :
    ∀ i (h : i < (reportLines l).length),
      isPathLine ((reportLines l).get ⟨i, h⟩) = true →
      ∃ h2 : i + 1 < (reportLines l).length,
        isMsgLine ((reportLines l).get ⟨i + 1, h2⟩) = true := by
  induction l with
  | nil => intro i h; exact absurd h (by simp [reportLines])
  | cons e t ih =>
    intro i h hp
    match i with
    | 0 =>
      refine ⟨by simp only [reportLines, List.length_cons]; omega, ?_⟩
      show isMsgLine (msgLine e) = true
      exact isMsgLine_msgLine e
    | 1 =>
      exact absurd hp (by rw [show (reportLines (e :: t)).get ⟨1, h⟩ = msgLine e from rfl,
        isPathLine_msgLine]; exact Bool.false_ne_true)
    | (j + 2) =>
      have h3 : j < (reportLines t).length := by
        have := h
        simp only [reportLines, List.length_cons] at this
        omega
      have hp3 : isPathLine ((reportLines t).get ⟨j, h3⟩) = true := hp
      obtain ⟨h4, hm⟩ := ih j h3 hp3
      refine ⟨by simp only [reportLines, List.length_cons]; omega, ?_⟩
      exact hm

theorem report_single_empty_path (m : String) :
    generate_report [{ message := m, path := "" }] =
      "Configuration validation failed:\n  - Path: \n    Message: " ++ m ++ "\n" := by
  show reportStep "Configuration validation failed:\n" { message := m, path := "" } = _
  unfold reportStep
  rw [String.append_empty]
  rw [show "Configuration validation failed:\n" ++ ("  - Path: " ++ "\n") =
    "Configuration validation failed:\n  - Path: \n" from rfl]
  rw [← String.append_assoc, ← String.append_assoc]
  rfl

/-- C1: for every document and schema, validate_config returns at most one
error, and (on a well-formed schema) that error is exactly the head of the
exhaustive list of violations in traversal order (type, required,
properties, items, uniqueItems, document order within each): no further
violations are reported. -/
theorem validate_reports_first_violation_only (config schema : JValue) :
    (∀ l, validate_config config schema = Except.ok l → l.length ≤ 1) ∧
    (schemaOk schema = true →
      validate_config config schema =
        Except.ok ((collectErrors schema config []).head?.toList.map toErrorInfo)) := by
  constructor
  · intro l h
    unfold validate_config at h
    split at h
    · cases hfe : firstError schema config [] with
      | none =>
        rw [hfe] at h
        cases h
        exact Nat.zero_le 1
      | some e =>
        rw [hfe] at h
        cases h
        exact Nat.le_refl 1
    · exact Except.noConfusion h
  · intro hok
    unfold validate_config
    rw [if_pos hok, firstError_head]
    cases (collectErrors schema config []).head? with
    | none => rfl
    | some e => rfl

theorem validate_reports_first_violation_only_witness :
    validate_config cexEmptyDoc cexReqSchema =
      Except.ok ((collectErrors cexReqSchema cexEmptyDoc []).head?.toList.map toErrorInfo) ∧
    ∀ l, validate_config cexEmptyDoc cexReqSchema = Except.ok l → l.length ≤ 1 :=
  ⟨(validate_reports_first_violation_only cexEmptyDoc cexReqSchema).2 (by decide),
   (validate_reports_first_violation_only cexEmptyDoc cexReqSchema).1⟩

/-- C2: generate_report on the empty list is exactly the fixed success
message; on a non-empty list it is the failure header followed, for each
error in result order, by a Path line and a Message line; the report lines
contain exactly one Path line per error, each immediately followed by a
Message line. -/
theorem generate_report_format (errors : List ErrorInfo) :
    generate_report [] = "Configuration validation successful. No issues found." ∧
    (errors ≠ [] →
      generate_report errors = unlines ("Configuration validation failed:" :: reportLines errors)) ∧
    (reportLines errors).countP (fun s => isPathLine s) = errors.length ∧
    (∀ i (h : i < (reportLines errors).length),
      isPathLine ((reportLines errors).get ⟨i, h⟩) = true →
      ∃ h2 : i + 1 < (reportLines errors).length,
        isMsgLine ((reportLines errors).get ⟨i + 1, h2⟩) = true) :=
  ⟨rfl, generate_report_failed errors, reportLines_countP errors, reportLines_follow errors⟩

theorem generate_report_format_witness :
    generate_report [{ message := "'a' is a required property", path := "" }] =
      unlines ("Configuration validation failed:" ::
        reportLines [{ message := "'a' is a required property", path := "" }]) :=
  (generate_report_format [{ message := "'a' is a required property", path := "" }]).2.1
    (by simp)

/-- C3: the process exit code is 0 exactly when loading both files, the
schema check and validation succeed with an empty error list, and 1 in
every other case; no other exit code occurs. -/
theorem exit_code_zero_iff_success (fs : String → OpenResult)
    (yamlParse jsonParse : String → Except String JValue)
    (config_file schema_file : String) (output_file : Option String) (writeOk : Bool) :
    ((mainRun fs yamlParse jsonParse config_file schema_file output_file writeOk).exitCode = 0 ∨
     (mainRun fs yamlParse jsonParse config_file schema_file output_file writeOk).exitCode = 1) ∧
    ((mainRun fs yamlParse jsonParse config_file schema_file output_file writeOk).exitCode = 0 ↔
      ∃ c s, load_config fs yamlParse jsonParse config_file = Except.ok c ∧
        load_schema fs jsonParse schema_file = Except.ok s ∧
        validate_config c s = Except.ok ([] : List ErrorInfo)) := by
  cases hc : load_config fs yamlParse jsonParse config_file with
  | error e =>
    refine ⟨Or.inr (by simp [mainRun, hc]), ?_, ?_⟩
    · intro h
      simp [mainRun, hc] at h
    · rintro ⟨c, s, h1, -, -⟩
      exact Except.noConfusion h1
  | ok c =>
    cases hs : load_schema fs jsonParse schema_file with
    | error e =>
      refine ⟨Or.inr (by simp [mainRun, hc, hs]), ?_, ?_⟩
      · intro h
        simp [mainRun, hc, hs] at h
      · rintro ⟨c2, s, -, h2, -⟩
        exact Except.noConfusion h2
    | ok s =>
      cases hv : validate_config c s with
      | error e =>
        refine ⟨Or.inr (by simp [mainRun, hc, hs, hv]), ?_, ?_⟩
        · intro h
          simp [mainRun, hc, hs, hv] at h
        · rintro ⟨c2, s2, h1, h2, h3⟩
          cases h1
          cases h2
          rw [hv] at h3
          exact Except.noConfusion h3
      | ok errors =>
        cases errors with
        | nil =>
          refine ⟨Or.inl (by simp [mainRun, hc, hs, hv]), ?_, ?_⟩
          · intro h
            exact ⟨c, s, rfl, rfl, hv⟩
          · intro h
            simp [mainRun, hc, hs, hv]
        | cons e t =>
          refine ⟨Or.inr (by simp [mainRun, hc, hs, hv]), ?_, ?_⟩
          · intro h
            simp [mainRun, hc, hs, hv] at h
          · rintro ⟨c2, s2, h1, h2, h3⟩
            cases h1
            cases h2
            rw [hv] at h3
            simp at h3

/-- C6: a well-formed document that conforms to the declared shape of a
well-formed schema validates with an empty result: no false positives. -/
theorem conforming_document_validates_clean (config schema : JValue)
    (hok : schemaOk schema = true) (hconf : conforms schema config = true) :
    validate_config config schema = Except.ok [] := by
  unfold validate_config
  rw [if_pos hok, conforms_firstError schema config [] hconf]

theorem conforming_document_validates_clean_witness :
    validate_config docA scenarioSchema = Except.ok [] :=
  conforming_document_validates_clean docA scenarioSchema (by decide) (by decide)

/-- C5: loading an existing readable file whose name ends in a suffix other
than .yaml, .yml or .json fails with the unsupported-format category
whatever the content, and the run exits 1 without validation running. -/
theorem unsupported_extension_fails_before_validation (fs : String → OpenResult)
    (yamlParse jsonParse : String → Except String JValue)
    (config_file schema_file text : String) (output_file : Option String) (writeOk : Bool)
    (hread : fs config_file = OpenResult.content text)
    (h1 : strEndsWith config_file ".yaml" = false)
    (h2 : strEndsWith config_file ".yml" = false)
    (h3 : strEndsWith config_file ".json" = false) :
    load_config fs yamlParse jsonParse config_file =
      Except.error (LoadError.unsupportedFormat
        "Error loading configuration file: Unsupported file format.  Must be YAML or JSON.") ∧
    mainRun fs yamlParse jsonParse config_file schema_file output_file writeOk =
      { exitCode := 1, validationRan := false, writeFailureLogged := false } := by
  have hl : load_config fs yamlParse jsonParse config_file =
      Except.error (LoadError.unsupportedFormat
        "Error loading configuration file: Unsupported file format.  Must be YAML or JSON.") := by
    unfold load_config
    rw [hread, h1, h2, h3]
    rfl
  exact ⟨hl, by simp [mainRun, hl]⟩

theorem unsupported_extension_fails_before_validation_witness :
    load_config fsToml parseObjNil parseObjNil "accounts.toml" =
      Except.error (LoadError.unsupportedFormat
        "Error loading configuration file: Unsupported file format.  Must be YAML or JSON.") ∧
    mainRun fsToml parseObjNil parseObjNil "accounts.toml" "schema.json" none true =
      { exitCode := 1, validationRan := false, writeFailureLogged := false } :=
  unsupported_extension_fails_before_validation fsToml parseObjNil parseObjNil
    "accounts.toml" "schema.json" "key = 1" none true (by decide) (by decide) (by decide) (by decide)

theorem typeKeyBad_cons (k : String) (v : JValue) (rest : JFields) :
    typeKeyBad (JFields.cons k v rest) =
      ((k == "type" && (match v with
                        | .str t => !(recognizedType t)
                        | _ => true)) || typeKeyBad rest) := rfl

theorem schemaOkFields_cons (k : String) (v : JValue) (rest : JFields) :
    schemaOkFields (JFields.cons k v rest) =
      ((if k == "type" then
          (match v with
           | .str t2 => recognizedType t2
           | _ => false)
        else if k == "properties" then
          (match v with
           | .obj props => schemaOkProps props
           | _ => true)
        else if k == "items" then schemaOk v
        else true)
       && schemaOkFields rest) := by
  cases v <;> rfl

theorem schemaOkFields_false_of_badType (sfields : JFields)
    (hmem : typeKeyBad sfields = true) :
    schemaOkFields sfields = false := by
  cases sfields with
  | nil => exact Bool.noConfusion hmem
  | cons k v rest =>
    rw [typeKeyBad_cons, Bool.or_eq_true] at hmem
    rw [schemaOkFields_cons]
    cases hmem with
    | inl hA =>
      rw [Bool.and_eq_true] at hA
      obtain ⟨hk, hv⟩ := hA
      rw [hk, if_pos rfl]
      cases v with
      | str t2 =>
        rw [Bool.not_eq_true'] at hv
        dsimp only at hv ⊢
        rw [hv, Bool.false_and]
      | null => rw [Bool.false_and]
      | bool b => rw [Bool.false_and]
      | num q => rw [Bool.false_and]
      | arr a => rw [Bool.false_and]
      | obj o => rw [Bool.false_and]
    | inr hrest =>
      rw [schemaOkFields_false_of_badType rest hrest, Bool.and_false]

/-- C7: a schema whose type keyword carries an unrecognized value makes
validate_config fail with the invalid-schema error: it never returns a
validation result, so no ValidationError is produced. -/
theorem invalid_schema_rejected (config : JValue) (sfields : JFields)
    (hmem : typeKeyBad sfields = true) :
    validate_config config (JValue.obj sfields) = Except.error "Invalid schema" ∧
    ∀ l, validate_config config (JValue.obj sfields) ≠ Except.ok l := by
  have hok : schemaOk (JValue.obj sfields) = false :=
    schemaOkFields_false_of_badType sfields hmem
  have h : validate_config config (JValue.obj sfields) = Except.error "Invalid schema" := by
    unfold validate_config
    rw [hok]
    rfl
  exact ⟨h, fun l hl => Except.noConfusion (h ▸ hl)⟩

theorem invalid_schema_rejected_witness :
    validate_config cexEmptyDoc (JValue.obj badTypeFields) = Except.error "Invalid schema" :=
  (invalid_schema_rejected cexEmptyDoc badTypeFields (by decide)).1

/-- C4 counterexample: the empty mapping is missing property b, which the
schema cexReqSchema names in required, yet the single reported error names a
(the first missing name) and its message does not mention b at all: the
first error does not name every missing property. -/
theorem required_message_counterexample :
    hasField JFields.nil "b" = false ∧
    validate_config cexEmptyDoc cexReqSchema =
      Except.ok [{ message := "'a' is a required property", path := "" }] ∧
    strContainsSub "'a' is a required property" "b" = false := by
  refine ⟨rfl, by rfl, by decide⟩

/-- C4 (amended): a mapping missing a name of the required list yields a
non-empty result; when the type step passes, the single error names the
first missing name of the required list, at the path of the mapping; in
particular scenario B yields the permissions error at path
service_accounts.0. -/
theorem required_missing_amended (sfields dfields : JFields) (req : JArr) (name : String)
    (hok : schemaOk (JValue.obj sfields) = true)
    (hreq : lookupField sfields "required" = some (JValue.arr req))
    (hmiss : firstMissingName req dfields = some name) :
    (∃ l, validate_config (JValue.obj dfields) (JValue.obj sfields) = Except.ok l ∧ l ≠ []) ∧
    (typeStep sfields (JValue.obj dfields) [] = none →
      validate_config (JValue.obj dfields) (JValue.obj sfields) =
        Except.ok [{ message := "'" ++ name ++ "' is a required property", path := "" }]) ∧
    validate_config docB scenarioSchema =
      Except.ok [{ message := "'permissions' is a required property",
                   path := "service_accounts.0" }] := by
  have hreqstep : requiredStep sfields dfields [] =
      some { path := ([] : List String),
             message := "'" ++ name ++ "' is a required property" } := by
    unfold requiredStep
    rw [hreq]
    dsimp only
    rw [hmiss]
  refine ⟨?_, ?_, by rfl⟩
  · unfold validate_config
    rw [if_pos hok, firstError_unf_obj_obj]
    cases ht : typeStep sfields (JValue.obj dfields) [] with
    | some e => exact ⟨[toErrorInfo e], rfl, by simp⟩
    | none =>
      dsimp only
      rw [hreqstep]
      exact ⟨[{ message := "'" ++ name ++ "' is a required property", path := "" }],
        rfl, by simp⟩
  · intro ht
    unfold validate_config
    rw [if_pos hok, firstError_unf_obj_obj, ht]
    dsimp only
    rw [hreqstep]
    rfl

theorem required_missing_amended_witness :
    validate_config cexEmptyDoc cexReqSchema =
      Except.ok [{ message := "'a' is a required property", path := "" }] ∧
    ∃ l, validate_config cexEmptyDoc cexReqSchema = Except.ok l ∧ l ≠ [] := by
  have h := required_missing_amended
    (JFields.cons "required"
      (JValue.arr (.cons (JValue.str "a") (.cons (JValue.str "b") .nil))) .nil)
    JFields.nil
    (JArr.cons (JValue.str "a") (.cons (JValue.str "b") .nil))
    "a" (by decide) (by rfl) (by rfl)
  exact ⟨h.2.1 (by rfl), h.1⟩

/-- C8: when validation succeeded with an empty error list and a report
write to the output file fails, the failure is logged but the exit code is
still the one validation produced (0); the exit code never depends on the
write outcome. -/
theorem write_failure_preserves_exit_code (fs : String → OpenResult)
    (yamlParse jsonParse : String → Except String JValue)
    (config_file schema_file output_file : String) (c s : JValue)
    (hc : load_config fs yamlParse jsonParse config_file = Except.ok c)
    (hs : load_schema fs jsonParse schema_file = Except.ok s)
    (hv : validate_config c s = Except.ok ([] : List ErrorInfo)) :
    mainRun fs yamlParse jsonParse config_file schema_file (some output_file) false =
      { exitCode := 0, validationRan := true, writeFailureLogged := true } ∧
    ∀ (out : Option String) (w1 w2 : Bool),
      (mainRun fs yamlParse jsonParse config_file schema_file out w1).exitCode =
        (mainRun fs yamlParse jsonParse config_file schema_file out w2).exitCode := by
  constructor
  · simp [mainRun, hc, hs, hv]
  · intro out w1 w2
    simp [mainRun, hc, hs, hv]

theorem write_failure_preserves_exit_code_witness :
    mainRun fsTwoFiles parseObjNil parseObjNil "config.json" "schema.json"
        (some "report.txt") false =
      { exitCode := 0, validationRan := true, writeFailureLogged := true } :=
  (write_failure_preserves_exit_code fsTwoFiles parseObjNil parseObjNil
    "config.json" "schema.json" "report.txt" (JValue.obj .nil) (JValue.obj .nil)
    (by rfl) (by rfl) (by rfl)).1

/-- C9: when the first violation is at the document root, the error path
sequence is empty, its dot-joined rendering is the empty string, and the
report shows a Path line with nothing after it. -/
theorem root_violation_empty_path (config schema : JValue) (e : VError)
    (hok : schemaOk schema = true)
    (hfe : firstError schema config [] = some e)
    (hpath : e.path = []) :
    validate_config config schema = Except.ok [{ message := e.message, path := "" }] ∧
    generate_report [{ message := e.message, path := "" }] =
      "Configuration validation failed:\n  - Path: \n    Message: " ++ e.message ++ "\n" := by
  constructor
  · unfold validate_config
    rw [if_pos hok, hfe]
    unfold toErrorInfo renderPath
    dsimp only
    rw [hpath]
    rfl
  · exact report_single_empty_path e.message

theorem root_violation_empty_path_witness :
    validate_config JValue.null (JValue.obj (.cons "type" (JValue.str "object") .nil)) =
      Except.ok [{ message := "is not of type 'object'", path := "" }] ∧
    generate_report [{ message := "is not of type 'object'", path := "" }] =
      "Configuration validation failed:\n  - Path: \n    Message: " ++
        "is not of type 'object'" ++ "\n" :=
  root_violation_empty_path JValue.null (JValue.obj (.cons "type" (JValue.str "object") .nil))
    { path := [], message := "is not of type 'object'" } (by decide) (by rfl) (by rfl)

/-- C10 counterexample: a path that exists but cannot be read (a permission
failure on open) does not resolve to an existing readable file, yet load
fails with the generic ValueError wrap of the read failure, not with the
FileNotFound category. -/
theorem unreadable_file_counterexample :
    fsPerm "accounts.json" = OpenResult.readFailure "Permission denied" ∧
    load_config fsPerm parseObjNil parseObjNil "accounts.json" =
      Except.error (LoadError.readError "Error loading configuration file: Permission denied") ∧
    isFileNotFound (load_config fsPerm parseObjNil parseObjNil "accounts.json") = false := by
  refine ⟨rfl, by rfl, by decide⟩

/-- C10 (amended): for every path that does not exist, load fails with the
FileNotFound category whatever the file extension: the open happens before
the extension check, so a missing file with an unsupported extension still
reports FileNotFound. -/
theorem missing_file_is_file_not_found (fs : String → OpenResult)
    (yamlParse jsonParse : String → Except String JValue) (config_file : String)
    (h : fs config_file = OpenResult.notFound) :
    load_config fs yamlParse jsonParse config_file =
      Except.error (LoadError.fileNotFound ("Configuration file not found: " ++ config_file)) := by
  unfold load_config
  rw [h]

theorem missing_file_is_file_not_found_witness :
    load_config fsEmpty parseObjNil parseObjNil "accounts.toml" =
      Except.error (LoadError.fileNotFound "Configuration file not found: accounts.toml") := by
  have h := missing_file_is_file_not_found fsEmpty parseObjNil parseObjNil
    "accounts.toml" (by decide)
  rw [h]
  rfl
